import Mathlib

set_option maxHeartbeats 1000000

/-!
Verification of the Driving Control Core of the winter driving simulator.

The embedding follows the source:
* `src/src/controls/InputManager.js` — the Input Conditioner, modelled over ℚ
  (its arithmetic is plain rational arithmetic, so the model is computable);
* `src/unnamed/part_001` — the `Vehicle` controller (steering, engine/brake
  force model, anti-roll stability correction, transform synchronisation),
  modelled over ℝ together with the cannon-es vector/quaternion operations it
  calls (`Vec3.dot`, `Vec3.cross`, `Vec3.normalize`, `Quaternion.vmult`,
  `Quaternion.mult`, `Body.applyLocalForce`).
Console logging and the purely visual hand animation carry no control state
and are omitted.
-/

/-! ## Input Conditioner (src/src/controls/InputManager.js), over ℚ -/

/-- Raw key state the InputManager reads (`this.keys`), restricted to the keys
its update consults, plus the pointer x position (`this.mousePosition.x`). -/
structure RawKeys where
  a : Bool
  d : Bool
  w : Bool
  s : Bool
  arrowleft : Bool
  arrowright : Bool
  arrowup : Bool
  arrowdown : Bool
  shift : Bool
  space : Bool
deriving DecidableEq

/-- Mutable state of the InputManager: `steeringWheel`, `throttle`, `brake`. -/
structure IMState where
  steeringWheel : ℚ
  throttle : ℚ
  brake : ℚ
deriving DecidableEq

/-- Constructor state: steeringWheel = 0, throttle = 0, brake = 0. -/
def IMState.init : IMState := ⟨0, 0, 0⟩

/-- `this.steeringSpeed = 2.0`. -/
def steeringSpeed : ℚ := 2
/-- `this.steeringReturn = 1.0`. -/
def steeringReturn : ℚ := 1
/-- `this.steeringSensitivity = 1.0`. -/
def steeringSensitivity : ℚ := 1

/-- The steering target of `InputManager.update`: -1 while a left key is
held, +1 while a right key is held, otherwise the pointer x position scaled
by the sensitivity and clamped to the unit interval. -/
def imTargetSteering (k : RawKeys) (mouseX : ℚ) : ℚ :=
  if k.a || k.arrowleft then -1
  else if k.d || k.arrowright then 1
  else max (-1) (min 1 (mouseX * steeringSensitivity))

/-- The steering-wheel transition of `InputManager.update`: move toward the
target at `steeringSpeed`, or (when the target equals the current value,
is 0 and the current value is nonzero — dead code in the source, kept as
written) decay toward centre at `steeringReturn`, snapping below 0.1. -/
def imNewSteering (sw target dt : ℚ) : ℚ :=
  if target ≠ sw then
    if target > sw then min target (sw + steeringSpeed * dt)
    else max target (sw - steeringSpeed * dt)
  else if target = 0 ∧ sw ≠ 0 then
    if |sw| < 0.1 then 0
    else if sw > 0 then sw - steeringReturn * dt
    else sw + steeringReturn * dt
  else sw

/-- One tick of `InputManager.update(deltaTime)` given the key/pointer state:
clamps `deltaTime` to 0.1, moves `steeringWheel` toward the key/mouse target,
ramps `throttle` and `brake`. -/
def IMState.update (st : IMState) (deltaTime : ℚ) (k : RawKeys) (mouseX : ℚ) :
    IMState :=
  let dt := min deltaTime 0.1
  let targetSteering : ℚ := imTargetSteering k mouseX
  let sw := imNewSteering st.steeringWheel targetSteering dt
  let th :=
    if k.w || k.arrowup then min 1 (st.throttle + 2 * dt)
    else max 0 (st.throttle - 3 * dt)
  let br :=
    if k.s || k.arrowdown then min 1 (st.brake + 3 * dt)
    else max 0 (st.brake - 5 * dt)
  ⟨sw, th, br⟩

/-- The input frame `InputManager.getInputs()` hands to the vehicle: exactly
the six fields the source returns. -/
structure InputFrame where
  steering : ℚ
  throttle : ℚ
  brake : ℚ
  handbrake : Bool
  reverse : Bool
  boost : Bool
deriving DecidableEq

/-- `InputManager.getInputs()`: steering is the raw smoothed `steeringWheel`
value, reverse is derived as `brake > 0.9`. -/
def IMState.getInputs (st : IMState) (k : RawKeys) : InputFrame :=
  { steering := st.steeringWheel
    throttle := st.throttle
    brake := st.brake
    handbrake := k.space
    reverse := decide (st.brake > 0.9)
    boost := k.shift }

/-- One observed tick of the input loop: the key/pointer state sampled that
frame and the elapsed time `GameState.update` reported. -/
structure IMStep where
  keys : RawKeys
  mouseX : ℚ
  dt : ℚ
deriving DecidableEq

/-- Run the InputManager over a history of ticks. -/
def runInputManager (steps : List IMStep) (st : IMState) : IMState :=
  steps.foldl (fun s e => s.update e.dt e.keys e.mouseX) st

/-! ## cannon-es vectors and quaternions (the physics API the core calls) -/

/-- CANNON.Vec3. -/
@[ext]
structure Vec3 where
  x : ℝ
  y : ℝ
  z : ℝ

/-- CANNON.Quaternion, default constructed as (0, 0, 0, 1). -/
@[ext]
structure Quat where
  x : ℝ
  y : ℝ
  z : ℝ
  w : ℝ

/-- `new CANNON.Quaternion()`: the identity quaternion (0, 0, 0, 1). -/
def Quat.ident : Quat := ⟨0, 0, 0, 1⟩

/-- CANNON.Vec3.dot. -/
def Vec3.dot (a b : Vec3) : ℝ := a.x * b.x + a.y * b.y + a.z * b.z

/-- CANNON.Vec3.cross. -/
def Vec3.cross (a b : Vec3) : Vec3 :=
  ⟨a.y * b.z - a.z * b.y, a.z * b.x - a.x * b.z, a.x * b.y - a.y * b.x⟩

/-- CANNON.Vec3.vadd. -/
def Vec3.vadd (a b : Vec3) : Vec3 := ⟨a.x + b.x, a.y + b.y, a.z + b.z⟩

/-- CANNON.Vec3.scale. -/
def Vec3.scale (a : Vec3) (s : ℝ) : Vec3 := ⟨a.x * s, a.y * s, a.z * s⟩

/-- CANNON.Vec3.length. -/
noncomputable def Vec3.length (a : Vec3) : ℝ :=
  Real.sqrt (a.x * a.x + a.y * a.y + a.z * a.z)

/-- CANNON.Vec3.normalize: scales by the inverse length when the length is
positive, otherwise zeroes the vector. -/
noncomputable def Vec3.normalize (a : Vec3) : Vec3 :=
  if a.length > 0 then a.scale (1 / a.length) else ⟨0, 0, 0⟩

/-- CANNON.Quaternion.vmult: rotates vector `v` by the quaternion, computed as
in the cannon-es source (q times the pure quaternion of v, times q conjugate,
written out componentwise). -/
def Quat.vmult (q : Quat) (v : Vec3) : Vec3 :=
  let ix := q.w * v.x + q.y * v.z - q.z * v.y
  let iy := q.w * v.y + q.z * v.x - q.x * v.z
  let iz := q.w * v.z + q.x * v.y - q.y * v.x
  let iw := -q.x * v.x - q.y * v.y - q.z * v.z
  ⟨ix * q.w + iw * (-q.x) + iy * (-q.z) - iz * (-q.y),
   iy * q.w + iw * (-q.y) + iz * (-q.x) - ix * (-q.z),
   iz * q.w + iw * (-q.z) + ix * (-q.y) - iy * (-q.x)⟩

/-- CANNON.Quaternion.mult: the Hamilton product `a * b`. -/
def Quat.mult (a b : Quat) : Quat :=
  ⟨a.x * b.w + a.w * b.x + a.y * b.z - a.z * b.y,
   a.y * b.w + a.w * b.y + a.z * b.x - a.x * b.z,
   a.z * b.w + a.w * b.z + a.x * b.y - a.y * b.x,
   a.w * b.w - a.x * b.x - a.y * b.y - a.z * b.z⟩

/-- Quaternion conjugate (CANNON.Quaternion.conjugate). -/
def Quat.conj (q : Quat) : Quat := ⟨-q.x, -q.y, -q.z, q.w⟩

/-- The pure quaternion (v, 0) of a vector. -/
def Quat.fromVec (v : Vec3) : Quat := ⟨v.x, v.y, v.z, 0⟩

/-- The vector part of a quaternion. -/
def Quat.vec (q : Quat) : Vec3 := ⟨q.x, q.y, q.z⟩

/-- CANNON.Quaternion.setFromAxisAngle. -/
noncomputable def Quat.setFromAxisAngle (axis : Vec3) (angle : ℝ) : Quat :=
  let s := Real.sin (angle / 2)
  ⟨axis.x * s, axis.y * s, axis.z * s, Real.cos (angle / 2)⟩

/-! ## Vehicle controller state (src/unnamed/part_001) -/

/-- State of the Vehicle controller and of the physics/visual objects it
mutates.  `hasVehicle`/`hasChassis` model whether `this.vehicle` and
`this.chassis` are non-null (they are null until init completes).  The
per-wheel arrays are indexed by the fixed wheel enumeration FRONT_LEFT = 0,
FRONT_RIGHT = 1, BACK_LEFT = 2, BACK_RIGHT = 3. -/
@[ext]
structure VState where
  hasVehicle : Bool
  hasChassis : Bool
  speed : ℝ
  steeringAngle : ℝ
  position : Vec3
  quaternion : Quat
  velocity : Vec3
  force : Vec3
  torque : Vec3
  wheelSteering : Fin 4 → ℝ
  wheelEngineForce : Fin 4 → ℝ
  wheelBrake : Fin 4 → ℝ
  wheelWorldPos : Fin 4 → Vec3
  wheelWorldQuat : Fin 4 → Quat
  visualWheelPos : Fin 4 → Vec3
  visualWheelQuat : Fin 4 → Quat
  visualChassisPos : Vec3
  visualChassisQuat : Quat
  steeringWheelRot : ℝ

/-- `this.maxForce = 4000`. -/
def maxForce : ℝ := 4000
/-- `this.maxBrakeForce = 500`. -/
def maxBrakeForce : ℝ := 500
/-- `this.maxSteeringAngle = Math.PI / 4`. -/
noncomputable def maxSteeringAngle : ℝ := Real.pi / 4
/-- `this.steeringCorrection = 0.025`. -/
def steeringCorrection : ℝ := 0.025
/-- `const MAX_FORWARD_SPEED = 140` (km/h). -/
def MAX_FORWARD_SPEED : ℝ := 140
/-- `const MAX_REVERSE_SPEED = 30` (km/h). -/
def MAX_REVERSE_SPEED : ℝ := 30

/-- `vehicle.setSteeringValue(value, i)`. -/
def VState.setSteeringValue (s : VState) (value : ℝ) (i : Fin 4) : VState :=
  { s with wheelSteering := Function.update s.wheelSteering i value }

/-- `vehicle.applyEngineForce(force, i)`. -/
def VState.applyEngineForce (s : VState) (force : ℝ) (i : Fin 4) : VState :=
  { s with wheelEngineForce := Function.update s.wheelEngineForce i force }

/-- `vehicle.setBrake(force, i)`. -/
def VState.setBrake (s : VState) (force : ℝ) (i : Fin 4) : VState :=
  { s with wheelBrake := Function.update s.wheelBrake i force }

/-- `chassisBody.applyLocalForce(localForce, localPoint)` from cannon-es:
rotate force and point into world frame, add the force to the body force
accumulator and `relativePoint × force` to the torque accumulator. -/
def VState.applyLocalForce (s : VState) (localForce localPoint : Vec3) : VState :=
  let worldForce := s.quaternion.vmult localForce
  let relativePointWorld := s.quaternion.vmult localPoint
  { s with
    force := s.force.vadd worldForce
    torque := s.torque.vadd (relativePointWorld.cross worldForce) }

/-! ## Direction and speed estimate (Vehicle.updateEngine, part_001) -/

/-- `velInForwardDir`: the dot product of the body velocity with the local
forward axis (0, 0, -1) transformed by the body quaternion.  A pure function
of the rigid-body orientation and velocity. -/
def velInForwardDir (q : Quat) (v : Vec3) : ℝ := v.dot (q.vmult ⟨0, 0, -1⟩)

/-- `isMovingForward = velInForwardDir < 0` (the car faces -Z). -/
def engineIsMovingForward (q : Quat) (v : Vec3) : Prop := velInForwardDir q v < 0

/-- `actualSpeed = Math.abs(velInForwardDir) * 3.6` (m/s to km/h). -/
def engineActualSpeed (q : Quat) (v : Vec3) : ℝ := |velInForwardDir q v| * 3.6

/-! ## Steering controller (Vehicle.updateSteering, part_001) -/

/-- The angle computation of `Vehicle.updateSteering(steeringInput,
deltaTime)`: clamp the input, add the low-input straight-line drift
correction, then move the current angle toward the target at a
speed-reduced rate (the source names the rate `steeringSpeed`), snapping to
the target when within 0.001. -/
noncomputable def steerNewAngle (s : VState) (steeringInput deltaTime : ℝ) : ℝ :=
  let steeringInput := max (-1) (min 1 steeringInput)
  let driftCorrectionFactor := min 1 (s.speed / 50)
  let steeringInput :=
    if |steeringInput| < 0.1 then
      steeringInput + steeringCorrection * (1 + driftCorrectionFactor)
    else steeringInput
  let targetAngle := -steeringInput * maxSteeringAngle
  let speedFactor := max 0 (1 - s.speed / 200)
  let steeringResponse := 5.0 * speedFactor
  if |targetAngle - s.steeringAngle| > 0.001 then
    s.steeringAngle + (targetAngle - s.steeringAngle) * min (steeringResponse * deltaTime) 1
  else targetAngle

/-- One tick of `Vehicle.updateSteering`: compute the new angle, store it,
steer the front wheels with it, explicitly zero the rear wheels, rotate the
visual steering wheel by -angle times 2.5.  (The
`chassis.userData.steeringInput` bookkeeping for the camera carries no
control state and is omitted.) -/
noncomputable def VState.updateSteering (s : VState) (steeringInput deltaTime : ℝ) :
    VState :=
  let newAngle := steerNewAngle s steeringInput deltaTime
  let s1 := { s with steeringAngle := newAngle }
  let s1 := s1.setSteeringValue newAngle 0
  let s1 := s1.setSteeringValue newAngle 1
  let s1 := s1.setSteeringValue 0 2
  let s1 := s1.setSteeringValue 0 3
  { s1 with steeringWheelRot := -newAngle * 2.5 }

/-! ## Engine/brake force model and anti-roll (Vehicle.updateEngine, part_001) -/

open Classical in
/-- The engine/brake decision block of `Vehicle.updateEngine` (part_001):
given the throttle and brake inputs, the reverse and boost flags and the
direction/speed estimate, the pair (engineForce, brakeForce). -/
noncomputable def engineBrakeDecision (throttle brake : ℝ) (reverse boost : Bool)
    (velInFwd actualSpeed : ℝ) : ℝ × ℝ :=
  if reverse then
    if velInFwd < 0 ∧ actualSpeed > 1 then (0, maxBrakeForce * 1.5)
    else
      let engineForce := -maxForce * 0.5
      (if ¬velInFwd < 0 ∧ actualSpeed > MAX_REVERSE_SPEED then 0 else engineForce, 0)
  else
    let engineForce := throttle * maxForce
    let brakeForce := brake * maxBrakeForce
    let engineForce := if boost ∧ throttle > 0.1 then engineForce * 1.3 else engineForce
    (if velInFwd < 0 ∧ actualSpeed > MAX_FORWARD_SPEED then 0 else engineForce,
     brakeForce)

/-- The per-wheel application loop of `Vehicle.updateEngine`: full engine
force to the front wheels (front-wheel drive), zero engine force to the rear
wheels, the brake force to all four wheels. -/
def wheelForceLoop (s : VState) (engineForce brakeForce : ℝ) : VState :=
  let s1 := ((s.applyEngineForce engineForce 0).setBrake brakeForce 0)
  let s1 := ((s1.applyEngineForce engineForce 1).setBrake brakeForce 1)
  let s1 := ((s1.applyEngineForce 0 2).setBrake brakeForce 2)
  let s1 := ((s1.applyEngineForce 0 3).setBrake brakeForce 3)
  s1

open Classical in
/-- The downforce block of `Vehicle.updateEngine`: above 10 km/h, apply a
local downward force proportional to the stored speed at the body origin. -/
noncomputable def downforceBlock (s : VState) : VState :=
  if s.speed > 10 then s.applyLocalForce ⟨0, -s.speed * 8, 0⟩ ⟨0, 0, 0⟩ else s

open Classical in
/-- The anti-roll block of `Vehicle.updateEngine`.  The source constructs
`rotation = new CANNON.Quaternion()` (identity) and then runs
`this.chassisBody.quaternion.copy(rotation)`, which copies the fresh identity
quaternion INTO the body quaternion; the up-vector and tilt are then computed
from `rotation`, not from the body orientation. -/
noncomputable def antiRollBlock (s : VState) : VState :=
  let rotation := Quat.ident
  let s3 := { s with quaternion := rotation }
  let vehicleUp := rotation.vmult ⟨0, 1, 0⟩
  let worldUp : Vec3 := ⟨0, 1, 0⟩
  let tiltAngle := Real.arccos (vehicleUp.dot worldUp)
  if tiltAngle > Real.pi / 6 then
    let correctionAxis := (vehicleUp.cross worldUp).normalize
    let correctionStrength := 3000 * (tiltAngle - Real.pi / 6)
    { s3 with torque := s3.torque.vadd (correctionAxis.scale correctionStrength) }
  else s3

open Classical in
/-- One tick of `Vehicle.updateEngine(throttle, brake, reverse, boost)`:
decision table for engine and brake force, per-wheel application
(front-wheel drive), speed-proportional downforce, and the anti-roll block.
Note the anti-roll block constructs `rotation = new CANNON.Quaternion()` and
then runs `this.chassisBody.quaternion.copy(rotation)`, which copies the
fresh identity quaternion INTO the body quaternion; the tilt is then computed
from `rotation`, not from the body orientation.  (The speed console logging
carries no control state and is omitted.) -/
noncomputable def VState.updateEngine (s : VState) (throttle brake : ℝ)
    (reverse boost : Bool) : VState :=
  let velInFwd := velInForwardDir s.quaternion s.velocity
  let actualSpeed := engineActualSpeed s.quaternion s.velocity
  let p : ℝ × ℝ := engineBrakeDecision throttle brake reverse boost velInFwd actualSpeed
  antiRollBlock (downforceBlock (wheelForceLoop s p.1 p.2))

/-- The tilt angle `updateEngine` actually computes: the up-vector comes from
the freshly constructed identity quaternion, so the expression does not
depend on the body state at all. -/
noncomputable def engineTiltAngle : ℝ :=
  Real.arccos ((Quat.ident.vmult ⟨0, 1, 0⟩).dot ⟨0, 1, 0⟩)

/-- The argument `updateEngine` passes to arccos. -/
def engineTiltArg : ℝ := (Quat.ident.vmult ⟨0, 1, 0⟩).dot ⟨0, 1, 0⟩

/-! ## Transform synchroniser and per-tick update (part_001) -/

/-- `Vehicle.updateWheelPositions`: copy each physics wheel world transform to
the visual wheel node of the same index (`updateWheelTransform` refreshes the
physics-engine-owned transform; the copy itself preserves the index order). -/
def VState.updateWheelPositions (s : VState) : VState :=
  { s with visualWheelPos := s.wheelWorldPos, visualWheelQuat := s.wheelWorldQuat }

/-- `Vehicle.updateChassisFromPhysics`: copy the body position to the visual
chassis and the body quaternion multiplied by a 180-degree Y-axis correction
to the visual chassis quaternion. -/
noncomputable def VState.updateChassisFromPhysics (s : VState) : VState :=
  let correctedQuaternion := s.quaternion
  let correctionQuat := Quat.setFromAxisAngle ⟨0, 1, 0⟩ Real.pi
  let correctedQuaternion := correctedQuaternion.mult correctionQuat
  { s with visualChassisPos := s.position, visualChassisQuat := correctedQuaternion }

/-- The input object `Vehicle.update` destructures. -/
structure DriverInputs where
  steering : ℝ
  throttle : ℝ
  brake : ℝ
  handbrake : Bool
  reverse : Bool
  boost : Bool

/-- `Vehicle.update(deltaTime, inputs)`: early return when `this.vehicle` or
`this.chassis` is null; otherwise steering, engine, wheel and chassis sync,
then the speed (km/h) estimate from the body state.  (The hand animation and
`chassis.userData` bookkeeping carry no control state and are omitted.) -/
noncomputable def VState.update (s : VState) (deltaTime : ℝ) (inputs : DriverInputs) :
    VState :=
  if !s.hasVehicle || !s.hasChassis then s
  else
    let s1 := s.updateSteering inputs.steering deltaTime
    let s2 := s1.updateEngine inputs.throttle inputs.brake inputs.reverse inputs.boost
    let s3 := s2.updateWheelPositions
    let s4 := s3.updateChassisFromPhysics
    let forwardVelocity := (Vec3.mk 0 0 (-1)).scale (-1)
    let forwardVelocity := s4.quaternion.vmult forwardVelocity
    let dotProduct := s4.velocity.dot forwardVelocity
    { s4 with speed := |dotProduct| * 3.6 }

/-- One steering tick as the surrounding loop produces it: the raw steering
input, the elapsed time, and the ambient `this.speed` the steering code reads
(the loop recomputes it each tick as an absolute value times 3.6, hence
nonnegative). -/
structure SteerStep where
  input : ℝ
  dt : ℝ
  speed : ℝ

/-- Run a sequence of `updateSteering` calls. -/
noncomputable def runSteering (steps : List SteerStep) (s : VState) : VState :=
  steps.foldl (fun st e => VState.updateSteering { st with speed := e.speed } e.input e.dt) s

/-! ## Spec-side definitions used for comparison -/

/-- Modelled from the spec (section 4.5, Stability Corrector): the tilt angle
between the body up-vector (local +Y rotated by the body's current
orientation) and world up — what the anti-roll code was meant to compute. -/
noncomputable def specBodyTilt (q : Quat) : ℝ :=
  Real.arccos ((q.vmult ⟨0, 1, 0⟩).dot ⟨0, 1, 0⟩)

/-- Modelled from the spec (section 7) and claim C3: the tilt computed with
the arccos argument clamped into the interval from -1 to 1 before use. -/
noncomputable def specClampedTilt (q : Quat) : ℝ :=
  Real.arccos (max (-1) (min 1 ((q.vmult ⟨0, 1, 0⟩).dot ⟨0, 1, 0⟩)))

/-! ## Concrete states for instantiating the theorems -/

/-- The zero vector. -/
def zeroVec : Vec3 := ⟨0, 0, 0⟩

/-- A baseline vehicle state: both references attached, at rest, upright,
everything zero. -/
def baseState : VState where
  hasVehicle := true
  hasChassis := true
  speed := 0
  steeringAngle := 0
  position := zeroVec
  quaternion := Quat.ident
  velocity := zeroVec
  force := zeroVec
  torque := zeroVec
  wheelSteering := fun _ => 0
  wheelEngineForce := fun _ => 0
  wheelBrake := fun _ => 0
  wheelWorldPos := fun _ => zeroVec
  wheelWorldQuat := fun _ => Quat.ident
  visualWheelPos := fun _ => zeroVec
  visualWheelQuat := fun _ => Quat.ident
  visualChassisPos := zeroVec
  visualChassisQuat := Quat.ident
  steeringWheelRot := 0

/-- Upright, moving forward at 50 m/s = 180 km/h (body forward is -Z and the
world velocity (0, 0, 50) projects to -50 on the forward axis). -/
def fastForwardState : VState := { baseState with velocity := ⟨0, 0, 50⟩ }

/-- Upright, moving forward at 5 m/s = 18 km/h. -/
def slowForwardState : VState := { baseState with velocity := ⟨0, 0, 5⟩ }

/-- A body flipped upside down: quaternion (1, 0, 0, 0), a 180-degree
rotation about the X axis, whose tilt relative to world up is pi. -/
def flippedState : VState := { baseState with quaternion := ⟨1, 0, 0, 0⟩ }

/-- A state whose physics vehicle reference is not yet initialised. -/
def detachedState : VState := { baseState with hasVehicle := false }

/-- All keys released, pointer at centre. -/
def noKeys : RawKeys := ⟨false, false, false, false, false, false, false, false, false, false⟩

/-! ## Computation helper lemmas -/

/-- Rotating by the identity quaternion is the identity map. -/
theorem Quat.vmult_ident (v : Vec3) : Quat.ident.vmult v = v := by
  ext <;> simp [Quat.vmult, Quat.ident]

/-- Rotating the zero vector gives the zero vector. -/
theorem Quat.vmult_zero (q : Quat) : q.vmult ⟨0, 0, 0⟩ = ⟨0, 0, 0⟩ := by
  ext <;> simp [Quat.vmult]

/-- Cross product with the zero vector on the left. -/
theorem Vec3.zero_cross (v : Vec3) : (Vec3.mk 0 0 0).cross v = ⟨0, 0, 0⟩ := by
  ext <;> simp [Vec3.cross]

/-- Adding the zero vector is the identity. -/
theorem Vec3.vadd_zero (v : Vec3) : v.vadd ⟨0, 0, 0⟩ = v := by
  ext <;> simp [Vec3.vadd]

/-- The arccos argument the anti-roll block computes is exactly 1. -/
theorem engineTiltArg_eq_one : engineTiltArg = 1 := by
  simp [engineTiltArg, Quat.vmult_ident, Vec3.dot]

/-- The tilt angle the anti-roll block computes is exactly 0. -/
theorem engineTiltAngle_eq_zero : engineTiltAngle = 0 := by
  have h : engineTiltAngle = Real.arccos engineTiltArg := rfl
  rw [h, engineTiltArg_eq_one, Real.arccos_one]

/-- The anti-roll counter-torque branch condition is false. -/
theorem tilt_not_gt :
    ¬ Real.arccos ((Quat.ident.vmult ⟨0, 1, 0⟩).dot ⟨0, 1, 0⟩) > Real.pi / 6 := by
  have h : Real.arccos ((Quat.ident.vmult ⟨0, 1, 0⟩).dot ⟨0, 1, 0⟩) = engineTiltAngle := rfl
  rw [h, engineTiltAngle_eq_zero]
  have := Real.pi_pos
  intro hcon
  linarith

/-! ## Projection lemmas for the mutation operations -/

@[simp] theorem setSteeringValue_wheelSteering (s : VState) (v : ℝ) (i : Fin 4) :
    (s.setSteeringValue v i).wheelSteering = Function.update s.wheelSteering i v := rfl

@[simp] theorem setSteeringValue_steeringAngle (s : VState) (v : ℝ) (i : Fin 4) :
    (s.setSteeringValue v i).steeringAngle = s.steeringAngle := rfl

@[simp] theorem setSteeringValue_speed (s : VState) (v : ℝ) (i : Fin 4) :
    (s.setSteeringValue v i).speed = s.speed := rfl

@[simp] theorem applyEngineForce_wheelEngineForce (s : VState) (f : ℝ) (i : Fin 4) :
    (s.applyEngineForce f i).wheelEngineForce = Function.update s.wheelEngineForce i f := rfl

@[simp] theorem applyEngineForce_wheelBrake (s : VState) (f : ℝ) (i : Fin 4) :
    (s.applyEngineForce f i).wheelBrake = s.wheelBrake := rfl

@[simp] theorem applyEngineForce_torque (s : VState) (f : ℝ) (i : Fin 4) :
    (s.applyEngineForce f i).torque = s.torque := rfl

@[simp] theorem applyEngineForce_quaternion (s : VState) (f : ℝ) (i : Fin 4) :
    (s.applyEngineForce f i).quaternion = s.quaternion := rfl

@[simp] theorem applyEngineForce_speed (s : VState) (f : ℝ) (i : Fin 4) :
    (s.applyEngineForce f i).speed = s.speed := rfl

@[simp] theorem setBrake_wheelBrake (s : VState) (f : ℝ) (i : Fin 4) :
    (s.setBrake f i).wheelBrake = Function.update s.wheelBrake i f := rfl

@[simp] theorem setBrake_wheelEngineForce (s : VState) (f : ℝ) (i : Fin 4) :
    (s.setBrake f i).wheelEngineForce = s.wheelEngineForce := rfl

@[simp] theorem setBrake_torque (s : VState) (f : ℝ) (i : Fin 4) :
    (s.setBrake f i).torque = s.torque := rfl

@[simp] theorem setBrake_quaternion (s : VState) (f : ℝ) (i : Fin 4) :
    (s.setBrake f i).quaternion = s.quaternion := rfl

@[simp] theorem setBrake_speed (s : VState) (f : ℝ) (i : Fin 4) :
    (s.setBrake f i).speed = s.speed := rfl

@[simp] theorem applyLocalForce_torque (s : VState) (lf lp : Vec3) :
    (s.applyLocalForce lf lp).torque =
      s.torque.vadd ((s.quaternion.vmult lp).cross (s.quaternion.vmult lf)) := rfl

@[simp] theorem applyLocalForce_quaternion (s : VState) (lf lp : Vec3) :
    (s.applyLocalForce lf lp).quaternion = s.quaternion := rfl

@[simp] theorem applyLocalForce_wheelEngineForce (s : VState) (lf lp : Vec3) :
    (s.applyLocalForce lf lp).wheelEngineForce = s.wheelEngineForce := rfl

@[simp] theorem applyLocalForce_wheelBrake (s : VState) (lf lp : Vec3) :
    (s.applyLocalForce lf lp).wheelBrake = s.wheelBrake := rfl

/-! ## Block lemmas for updateEngine -/

/-- The wheel loop writes the engine force to the front wheels and zero to
the rear wheels. -/
theorem wheelForceLoop_engineForce (s : VState) (ef bf : ℝ) (i : Fin 4) :
    (wheelForceLoop s ef bf).wheelEngineForce i = if i = 0 ∨ i = 1 then ef else 0 := by
  fin_cases i <;> simp [wheelForceLoop, Function.update_apply]

/-- The wheel loop writes the brake force to all four wheels. -/
theorem wheelForceLoop_brake (s : VState) (ef bf : ℝ) (i : Fin 4) :
    (wheelForceLoop s ef bf).wheelBrake i = bf := by
  fin_cases i <;> simp [wheelForceLoop, Function.update_apply]

/-- The wheel loop leaves the torque unchanged. -/
theorem wheelForceLoop_torque (s : VState) (ef bf : ℝ) :
    (wheelForceLoop s ef bf).torque = s.torque := by
  simp [wheelForceLoop]

/-- The wheel loop leaves the body quaternion unchanged. -/
theorem wheelForceLoop_quaternion (s : VState) (ef bf : ℝ) :
    (wheelForceLoop s ef bf).quaternion = s.quaternion := by
  simp [wheelForceLoop]

/-- The wheel loop leaves the stored speed unchanged. -/
theorem wheelForceLoop_speed (s : VState) (ef bf : ℝ) :
    (wheelForceLoop s ef bf).speed = s.speed := by
  simp [wheelForceLoop]

/-- The downforce block leaves the torque unchanged: the local force is
applied at the body origin, so its lever arm is zero. -/
theorem downforceBlock_torque (s : VState) : (downforceBlock s).torque = s.torque := by
  unfold downforceBlock
  split
  · simp [Quat.vmult_zero, Vec3.zero_cross, Vec3.vadd_zero]
  · rfl

/-- The downforce block leaves the body quaternion unchanged. -/
theorem downforceBlock_quaternion (s : VState) :
    (downforceBlock s).quaternion = s.quaternion := by
  unfold downforceBlock
  split <;> simp

/-- The downforce block leaves the engine forces unchanged. -/
theorem downforceBlock_engineForce (s : VState) :
    (downforceBlock s).wheelEngineForce = s.wheelEngineForce := by
  unfold downforceBlock
  split <;> simp

/-- The downforce block leaves the brakes unchanged. -/
theorem downforceBlock_brake (s : VState) :
    (downforceBlock s).wheelBrake = s.wheelBrake := by
  unfold downforceBlock
  split <;> simp

/-- The anti-roll block always takes the no-torque branch: its tilt is
computed from the fresh identity quaternion, hence equals 0, which is not
above the 30-degree threshold. -/
theorem antiRollBlock_eq (s : VState) :
    antiRollBlock s = { s with quaternion := Quat.ident } := by
  simp only [antiRollBlock]
  rw [if_neg tilt_not_gt]

open Classical in
/-- updateEngine leaves the accumulated torque unchanged: the downforce has a
zero lever arm and the counter-torque branch is never taken. -/
theorem updateEngine_torque (s : VState) (t b : ℝ) (rev bo : Bool) :
    (s.updateEngine t b rev bo).torque = s.torque := by
  simp only [VState.updateEngine]
  rw [antiRollBlock_eq]
  show (downforceBlock _).torque = _
  rw [downforceBlock_torque, wheelForceLoop_torque]

open Classical in
/-- updateEngine always ends with the body quaternion overwritten by the
fresh identity quaternion. -/
theorem updateEngine_quaternion (s : VState) (t b : ℝ) (rev bo : Bool) :
    (s.updateEngine t b rev bo).quaternion = Quat.ident := by
  simp only [VState.updateEngine]
  rw [antiRollBlock_eq]

open Classical in
/-- The engine force updateEngine writes per wheel: the decision pair's
engine force on the front wheels, zero on the rear wheels. -/
theorem updateEngine_wheelEngineForce (s : VState) (t b : ℝ) (rev bo : Bool) (i : Fin 4) :
    (s.updateEngine t b rev bo).wheelEngineForce i =
      if i = 0 ∨ i = 1 then
        (engineBrakeDecision t b rev bo (velInForwardDir s.quaternion s.velocity)
          (engineActualSpeed s.quaternion s.velocity)).1
      else 0 := by
  simp only [VState.updateEngine]
  rw [antiRollBlock_eq]
  show (downforceBlock _).wheelEngineForce i = _
  rw [downforceBlock_engineForce, wheelForceLoop_engineForce]

open Classical in
/-- The brake force updateEngine writes is the decision pair's brake force on
all four wheels. -/
theorem updateEngine_wheelBrake (s : VState) (t b : ℝ) (rev bo : Bool) (i : Fin 4) :
    (s.updateEngine t b rev bo).wheelBrake i =
      (engineBrakeDecision t b rev bo (velInForwardDir s.quaternion s.velocity)
        (engineActualSpeed s.quaternion s.velocity)).2 := by
  simp only [VState.updateEngine]
  rw [antiRollBlock_eq]
  show (downforceBlock _).wheelBrake i = _
  rw [downforceBlock_brake, wheelForceLoop_brake]

/-! ## Steering projection lemmas -/

/-- The steering angle updateSteering stores. -/
theorem updateSteering_steeringAngle (s : VState) (input dt : ℝ) :
    (s.updateSteering input dt).steeringAngle = steerNewAngle s input dt := by
  simp only [VState.updateSteering, setSteeringValue_steeringAngle]

/-- The wheel steering array updateSteering writes. -/
theorem updateSteering_wheelSteering (s : VState) (input dt : ℝ) :
    (s.updateSteering input dt).wheelSteering =
      Function.update (Function.update (Function.update (Function.update
        s.wheelSteering 0 (steerNewAngle s input dt)) 1 (steerNewAngle s input dt))
        2 0) 3 0 := by
  simp only [VState.updateSteering, setSteeringValue_wheelSteering]

/-! ## Claim theorems -/

/-- C8: after every call to updateSteering, whatever the state reached by any
input history, the steering value set on the two rear wheels (indices 2 and
3) is exactly 0. -/
theorem rear_wheel_steering_always_zero (s : VState) (input dt : ℝ) :
    (s.updateSteering input dt).wheelSteering 2 = 0 ∧
      (s.updateSteering input dt).wheelSteering 3 = 0 := by
  rw [updateSteering_wheelSteering]
  constructor <;> simp [Function.update_apply]

/-- C2: every updateEngine call overwrites the chassis body quaternion with
the fresh identity quaternion, the tilt angle it then computes is 0, and the
anti-flip counter-torque branch never executes (the accumulated torque is
returned unchanged). -/
theorem engine_overwrites_orientation (s : VState) (t b : ℝ) (rev bo : Bool) :
    (s.updateEngine t b rev bo).quaternion = Quat.ident ∧
      engineTiltAngle = 0 ∧
      (s.updateEngine t b rev bo).torque = s.torque :=
  ⟨updateEngine_quaternion s t b rev bo, engineTiltAngle_eq_zero,
    updateEngine_torque s t b rev bo⟩

/-- C3 counterexample: the tilt computation does not clamp-and-use the
body-orientation dot product — at the flipped orientation (1, 0, 0, 0) the
clamped computation of the claim gives pi while the code computes 0. -/
theorem tilt_clamp_counterexample :
    engineTiltAngle ≠ specClampedTilt ⟨1, 0, 0, 0⟩ := by
  have harg : ((Quat.mk 1 0 0 0).vmult ⟨0, 1, 0⟩).dot ⟨0, 1, 0⟩ = -1 := by
    norm_num [Quat.vmult, Vec3.dot]
  have h2 : specClampedTilt ⟨1, 0, 0, 0⟩ = Real.pi := by
    unfold specClampedTilt
    rw [harg]
    norm_num [Real.arccos_neg_one]
  rw [engineTiltAngle_eq_zero, h2]
  exact fun hc => absurd hc.symm (ne_of_gt Real.pi_pos)

/-- C3 amended: the code applies no clamp, but the argument it passes to
arccos is identically 1 — the up-vector is computed from a freshly
constructed identity quaternion rather than from the body orientation — so
for every body orientation the argument lies in the closed interval from -1
to 1 and the computed tilt is 0, never NaN. -/
theorem tilt_arccos_argument_safe :
    engineTiltArg = 1 ∧ -1 ≤ engineTiltArg ∧ engineTiltArg ≤ 1 ∧
      engineTiltAngle = 0 :=
  ⟨engineTiltArg_eq_one, by rw [engineTiltArg_eq_one]; norm_num,
    by rw [engineTiltArg_eq_one], engineTiltAngle_eq_zero⟩

/-- cannon-es vmult is rotation by quaternion conjugation: the vector part of
q times the pure quaternion (v, 0) times the conjugate of q. -/
theorem vmult_eq_conjugation (q : Quat) (v : Vec3) :
    q.vmult v = ((q.mult (Quat.fromVec v)).mult q.conj).vec := by
  ext <;> simp [Quat.vmult, Quat.mult, Quat.conj, Quat.fromVec, Quat.vec]

/-- C7: the direction and speed estimate is a pure function of the body
quaternion and velocity: the signed forward speed is the dot product of the
world velocity with the local forward axis (0, 0, -1) rotated by the body
orientation (quaternion conjugation), isMovingForward holds exactly when the
projection is negative, and the speed in km/h is its absolute value times
3.6. -/
theorem direction_speed_estimate_pure (s : VState) :
    velInForwardDir s.quaternion s.velocity =
        s.velocity.dot
          (((s.quaternion.mult (Quat.fromVec ⟨0, 0, -1⟩)).mult s.quaternion.conj).vec) ∧
      (engineIsMovingForward s.quaternion s.velocity ↔
        velInForwardDir s.quaternion s.velocity < 0) ∧
      engineActualSpeed s.quaternion s.velocity =
        |velInForwardDir s.quaternion s.velocity| * 3.6 := by
  refine ⟨?_, Iff.rfl, rfl⟩
  unfold velInForwardDir
  rw [vmult_eq_conjugation]

/-- C1: the stability corrector is dead code.  At the flipped orientation
(1, 0, 0, 0) the true chassis tilt is pi, far above the 30-degree threshold,
yet updateEngine adds no torque — it has overwritten the orientation with
the identity quaternion and computed a tilt of 0 instead. -/
theorem stability_corrector_dead :
    specBodyTilt ⟨1, 0, 0, 0⟩ = Real.pi ∧
      Real.pi / 6 < specBodyTilt ⟨1, 0, 0, 0⟩ ∧
      (flippedState.updateEngine 0 0 false false).torque = flippedState.torque ∧
      (flippedState.updateEngine 0 0 false false).quaternion = Quat.ident := by
  have harg : ((Quat.mk 1 0 0 0).vmult ⟨0, 1, 0⟩).dot ⟨0, 1, 0⟩ = -1 := by
    norm_num [Quat.vmult, Vec3.dot]
  have h1 : specBodyTilt ⟨1, 0, 0, 0⟩ = Real.pi := by
    unfold specBodyTilt
    rw [harg, Real.arccos_neg_one]
  refine ⟨h1, ?_, updateEngine_torque _ _ _ _ _, updateEngine_quaternion _ _ _ _ _⟩
  rw [h1]
  linarith [Real.pi_pos]

open Classical in
/-- The decision pair in the forward branch (reverse not requested). -/
theorem engineBrakeDecision_forward (t b : ℝ) (bo : Bool) (vf sp : ℝ) :
    engineBrakeDecision t b false bo vf sp =
      (if vf < 0 ∧ sp > MAX_FORWARD_SPEED then 0
       else if bo ∧ t > 0.1 then t * maxForce * 1.3 else t * maxForce,
       b * maxBrakeForce) := by
  simp [engineBrakeDecision]

open Classical in
/-- The decision pair when reverse is requested while moving forward above
the small-speed threshold. -/
theorem engineBrakeDecision_reverse_braking (t b : ℝ) (bo : Bool) (vf sp : ℝ)
    (h1 : vf < 0) (h2 : sp > 1) :
    engineBrakeDecision t b true bo vf sp = (0, maxBrakeForce * 1.5) := by
  simp [engineBrakeDecision, h1, h2]

open Classical in
/-- C5: while driving forward (reverse false), once the vehicle moves forward
above the 140 km/h cap the engine force applied to every wheel that tick is
0 while the brake force stays brake times maxBrakeForce; below the cap the
front wheels get the full throttle force (boosted when boost is held with
throttle above 0.1). -/
theorem forward_speed_cap (s : VState) (t b : ℝ) (bo : Bool) :
    (velInForwardDir s.quaternion s.velocity < 0 →
      engineActualSpeed s.quaternion s.velocity > MAX_FORWARD_SPEED →
      (∀ i : Fin 4, (s.updateEngine t b false bo).wheelEngineForce i = 0) ∧
        ∀ i : Fin 4, (s.updateEngine t b false bo).wheelBrake i = b * maxBrakeForce) ∧
    (engineActualSpeed s.quaternion s.velocity < MAX_FORWARD_SPEED →
      (s.updateEngine t b false bo).wheelEngineForce 0 =
          (if bo ∧ t > 0.1 then t * maxForce * 1.3 else t * maxForce) ∧
        (s.updateEngine t b false bo).wheelEngineForce 1 =
          (if bo ∧ t > 0.1 then t * maxForce * 1.3 else t * maxForce)) := by
  constructor
  · intro hm hs
    constructor
    · intro i
      rw [updateEngine_wheelEngineForce, engineBrakeDecision_forward]
      simp [hm, hs]
    · intro i
      rw [updateEngine_wheelBrake, engineBrakeDecision_forward]
  · intro hlt
    have hnc : ¬(velInForwardDir s.quaternion s.velocity < 0 ∧
        engineActualSpeed s.quaternion s.velocity > MAX_FORWARD_SPEED) := by
      rintro ⟨-, h⟩
      linarith
    constructor <;>
      · rw [updateEngine_wheelEngineForce, engineBrakeDecision_forward]
        simp [hnc]

/-- C5 instantiated: upright, moving forward at 180 km/h with full throttle
and no brake — every wheel gets zero engine force and zero brake force. -/
theorem forward_speed_cap_witness :
    (fastForwardState.updateEngine 1 0 false false).wheelEngineForce 0 = 0 ∧
      (fastForwardState.updateEngine 1 0 false false).wheelEngineForce 1 = 0 ∧
      (fastForwardState.updateEngine 1 0 false false).wheelEngineForce 2 = 0 ∧
      (fastForwardState.updateEngine 1 0 false false).wheelEngineForce 3 = 0 ∧
      (fastForwardState.updateEngine 1 0 false false).wheelBrake 0 = 0 * maxBrakeForce := by
  have hvf : velInForwardDir fastForwardState.quaternion fastForwardState.velocity = -50 := by
    norm_num [fastForwardState, baseState, velInForwardDir, Quat.vmult_ident, Vec3.dot]
  have hm : velInForwardDir fastForwardState.quaternion fastForwardState.velocity < 0 := by
    rw [hvf]
    norm_num
  have hs : engineActualSpeed fastForwardState.quaternion fastForwardState.velocity >
      MAX_FORWARD_SPEED := by
    rw [engineActualSpeed, hvf]
    norm_num [MAX_FORWARD_SPEED]
  have h := (forward_speed_cap fastForwardState 1 0 false).1 hm hs
  exact ⟨h.1 0, h.1 1, h.1 2, h.1 3, h.2 0⟩

open Classical in
/-- C6: whenever reverse is requested while moving forward above the
small-speed threshold (1 km/h), the engine force applied that tick is 0 on
every wheel and the brake force set on all four wheels is the amplified
value maxBrakeForce times 1.5. -/
theorem reverse_brake_override (s : VState) (t b : ℝ) (bo : Bool)
    (hm : velInForwardDir s.quaternion s.velocity < 0)
    (hs : engineActualSpeed s.quaternion s.velocity > 1) :
    (∀ i : Fin 4, (s.updateEngine t b true bo).wheelEngineForce i = 0) ∧
      ∀ i : Fin 4, (s.updateEngine t b true bo).wheelBrake i = maxBrakeForce * 1.5 := by
  constructor
  · intro i
    rw [updateEngine_wheelEngineForce, engineBrakeDecision_reverse_braking _ _ _ _ _ hm hs]
    simp
  · intro i
    rw [updateEngine_wheelBrake, engineBrakeDecision_reverse_braking _ _ _ _ _ hm hs]

/-- C6 instantiated: upright, moving forward at 18 km/h, reverse requested —
zero engine force everywhere and amplified brakes. -/
theorem reverse_brake_override_witness :
    (slowForwardState.updateEngine 1 0 true false).wheelEngineForce 0 = 0 ∧
      (slowForwardState.updateEngine 1 0 true false).wheelEngineForce 1 = 0 ∧
      (slowForwardState.updateEngine 1 0 true false).wheelEngineForce 2 = 0 ∧
      (slowForwardState.updateEngine 1 0 true false).wheelEngineForce 3 = 0 ∧
      (slowForwardState.updateEngine 1 0 true false).wheelBrake 0 = maxBrakeForce * 1.5 ∧
      (slowForwardState.updateEngine 1 0 true false).wheelBrake 1 = maxBrakeForce * 1.5 ∧
      (slowForwardState.updateEngine 1 0 true false).wheelBrake 2 = maxBrakeForce * 1.5 ∧
      (slowForwardState.updateEngine 1 0 true false).wheelBrake 3 = maxBrakeForce * 1.5 := by
  have hvf : velInForwardDir slowForwardState.quaternion slowForwardState.velocity = -5 := by
    norm_num [slowForwardState, baseState, velInForwardDir, Quat.vmult_ident, Vec3.dot]
  have hm : velInForwardDir slowForwardState.quaternion slowForwardState.velocity < 0 := by
    rw [hvf]
    norm_num
  have hs : engineActualSpeed slowForwardState.quaternion slowForwardState.velocity > 1 := by
    rw [engineActualSpeed, hvf]
    norm_num
  have h := reverse_brake_override slowForwardState 1 0 false hm hs
  exact ⟨h.1 0, h.1 1, h.1 2, h.1 3, h.2 0, h.2 1, h.2 2, h.2 3⟩

open Classical in
/-- C10: when the physics vehicle reference or the visual chassis reference
is not yet initialised, Vehicle.update for that tick returns the state
entirely unchanged: no steering values, engine forces, brakes, torques or
visual transforms are written. -/
theorem update_noop_when_detached (s : VState) (dt : ℝ) (inputs : DriverInputs)
    (h : s.hasVehicle = false ∨ s.hasChassis = false) :
    s.update dt inputs = s := by
  unfold VState.update
  rcases h with h | h <;> simp [h]

/-- C10 instantiated at a state whose vehicle reference is null. -/
theorem update_noop_witness :
    detachedState.update 0 ⟨0, 0, 0, false, false, false⟩ = detachedState :=
  update_noop_when_detached detachedState 0 ⟨0, 0, 0, false, false, false⟩ (Or.inl rfl)

/-! ## Steering bound (C4) -/

/-- maxSteeringAngle is positive. -/
theorem maxSteeringAngle_pos : 0 < maxSteeringAngle :=
  div_pos Real.pi_pos (by norm_num)

/-- One steering tick keeps the stored angle within plus-minus
maxSteeringAngle, provided the ambient speed is nonnegative (it is an
absolute value in the source) and the frame time is nonnegative. -/
theorem steerNewAngle_bound (s : VState) (input dt : ℝ)
    (hsp : 0 ≤ s.speed) (hdt : 0 ≤ dt)
    (hprev : |s.steeringAngle| ≤ maxSteeringAngle) :
    |steerNewAngle s input dt| ≤ maxSteeringAngle := by
  have hA : 0 < maxSteeringAngle := maxSteeringAngle_pos
  simp only [steerNewAngle]
  set c1 := max (-1) (min 1 input) with hc1def
  have hc1 : |c1| ≤ 1 := by
    rw [abs_le]
    exact ⟨le_max_left _ _, max_le (by norm_num) (min_le_left _ _)⟩
  set dcf := min 1 (s.speed / 50) with hdcfdef
  have hdcf0 : 0 ≤ dcf := le_min zero_le_one (div_nonneg hsp (by norm_num))
  have hdcf1 : dcf ≤ 1 := min_le_left _ _
  set c2 := if |c1| < 0.1 then c1 + steeringCorrection * (1 + dcf) else c1 with hc2def
  have hc2 : |c2| ≤ 1 := by
    rw [hc2def]
    split_ifs with hsmall
    · have hcorr0 : 0 ≤ steeringCorrection * (1 + dcf) := by
        unfold steeringCorrection
        nlinarith
      have hcorr1 : steeringCorrection * (1 + dcf) ≤ 0.05 := by
        unfold steeringCorrection
        nlinarith
      calc |c1 + steeringCorrection * (1 + dcf)|
          ≤ |c1| + |steeringCorrection * (1 + dcf)| := abs_add _ _
        _ = |c1| + steeringCorrection * (1 + dcf) := by rw [abs_of_nonneg hcorr0]
        _ ≤ 1 := by linarith
    · exact hc1
  have htgt : |(-c2) * maxSteeringAngle| ≤ maxSteeringAngle := by
    rw [abs_mul, abs_neg, abs_of_pos hA]
    calc |c2| * maxSteeringAngle ≤ 1 * maxSteeringAngle :=
        mul_le_mul_of_nonneg_right hc2 (le_of_lt hA)
      _ = maxSteeringAngle := one_mul _
  set lam := min (5.0 * max 0 (1 - s.speed / 200) * dt) 1 with hlamdef
  have hlam0 : 0 ≤ lam :=
    le_min (mul_nonneg (mul_nonneg (by norm_num) (le_max_left _ _)) hdt) zero_le_one
  have hlam1 : lam ≤ 1 := min_le_right _ _
  split_ifs
  · rw [abs_le] at hprev htgt ⊢
    constructor
    · nlinarith [mul_nonneg (sub_nonneg.mpr htgt.1) hlam0,
        mul_nonneg (sub_nonneg.mpr hprev.1) (sub_nonneg.mpr hlam1)]
    · nlinarith [mul_nonneg (sub_nonneg.mpr htgt.2) hlam0,
        mul_nonneg (sub_nonneg.mpr hprev.2) (sub_nonneg.mpr hlam1)]
  · exact htgt

/-- Unfolding one step of runSteering. -/
theorem runSteering_cons (e : SteerStep) (tl : List SteerStep) (st : VState) :
    runSteering (e :: tl) st =
      runSteering tl (VState.updateSteering { st with speed := e.speed } e.input e.dt) := rfl

/-- C4: starting from a state whose steering angle is 0, for every sequence
of updateSteering calls with inputs in the unit interval, nonnegative frame
times and nonnegative ambient speeds, the steering angle after each call
(every prefix of the sequence) stays within plus-minus maxSteeringAngle
(pi over 4) — including when the low-input steering correction is added. -/
theorem steering_angle_bounded (steps : List SteerStep) (s : VState) (n : ℕ)
    (h0 : s.steeringAngle = 0)
    (hsteps : ∀ e ∈ steps, |e.input| ≤ 1 ∧ 0 ≤ e.dt ∧ 0 ≤ e.speed) :
    |(runSteering (steps.take n) s).steeringAngle| ≤ maxSteeringAngle := by
  have key : ∀ (l : List SteerStep) (st : VState),
      (∀ e ∈ l, 0 ≤ e.dt ∧ 0 ≤ e.speed) →
      |st.steeringAngle| ≤ maxSteeringAngle →
      |(runSteering l st).steeringAngle| ≤ maxSteeringAngle := by
    intro l
    induction l with
    | nil => exact fun st _ h => h
    | cons e tl ih =>
      intro st hl h
      rw [runSteering_cons]
      apply ih
      · exact fun x hx => hl x (List.mem_cons_of_mem _ hx)
      · rw [updateSteering_steeringAngle]
        have he := hl e (List.mem_cons_self _ _)
        exact steerNewAngle_bound _ _ _ he.2 he.1 h
  apply key
  · exact fun e he => (hsteps e (List.take_subset n steps he)).2
  · rw [h0, abs_zero]
    exact le_of_lt maxSteeringAngle_pos

/-- C4 instantiated: one full-right steering tick from rest stays within the
bound. -/
theorem steering_angle_bounded_witness :
    |(runSteering (([⟨1, 1, 0⟩] : List SteerStep).take 1) baseState).steeringAngle| ≤
      maxSteeringAngle := by
  apply steering_angle_bounded [⟨1, 1, 0⟩] baseState 1 rfl
  intro e he
  rw [List.mem_singleton] at he
  subst he
  refine ⟨by norm_num, by norm_num, le_refl 0⟩

/-! ## Input Conditioner bound (C9) -/

/-- The steering target is always within the unit interval. -/
theorem imTargetSteering_bound (k : RawKeys) (mx : ℚ) : |imTargetSteering k mx| ≤ 1 := by
  unfold imTargetSteering
  split_ifs
  · norm_num
  · norm_num
  · rw [abs_le]
    exact ⟨le_max_left _ _, max_le (by norm_num) (min_le_left _ _)⟩

/-- The steering-wheel transition keeps the value within the unit interval
when the target is in the unit interval and the clamped frame time is
nonnegative and at most 0.1. -/
theorem imNewSteering_bound (sw target dt : ℚ)
    (hsw : |sw| ≤ 1) (htg : |target| ≤ 1) (hdt0 : 0 ≤ dt) (hdt1 : dt ≤ 0.1) :
    |imNewSteering sw target dt| ≤ 1 := by
  rw [abs_le] at hsw htg ⊢
  unfold imNewSteering
  simp only [steeringSpeed, steeringReturn]
  split_ifs with h1 h2 h3 h4 h5
  · exact ⟨le_min htg.1 (by linarith), le_trans (min_le_left _ _) htg.2⟩
  · exact ⟨le_trans htg.1 (le_max_left _ _), max_le htg.2 (by linarith)⟩
  · norm_num
  · constructor <;> linarith
  · have h6 : sw < 0 := lt_of_le_of_ne (not_lt.mp h5) h3.2
    constructor <;> linarith
  · exact hsw

/-- One InputManager tick keeps the steering wheel inside the unit interval
when the raw frame time is nonnegative. -/
theorem imUpdate_steering_bound (st : IMState) (dtRaw : ℚ) (k : RawKeys) (mx : ℚ)
    (hdt : 0 ≤ dtRaw) (h : |st.steeringWheel| ≤ 1) :
    |(st.update dtRaw k mx).steeringWheel| ≤ 1 := by
  have heq : (st.update dtRaw k mx).steeringWheel =
      imNewSteering st.steeringWheel (imTargetSteering k mx) (min dtRaw 0.1) := rfl
  rw [heq]
  exact imNewSteering_bound _ _ _ h (imTargetSteering_bound k mx)
    (le_min hdt (by norm_num)) (min_le_right _ _)

/-- Any input history with nonnegative frame times keeps the steering wheel
inside the unit interval. -/
theorem runInputManager_steering_bound (steps : List IMStep) :
    ∀ st : IMState, (∀ e ∈ steps, 0 ≤ e.dt) → |st.steeringWheel| ≤ 1 →
      |(runInputManager steps st).steeringWheel| ≤ 1 := by
  induction steps with
  | nil => exact fun _ _ h => h
  | cons e tl ih =>
    intro st hl h
    have hcons : runInputManager (e :: tl) st =
        runInputManager tl (st.update e.dt e.keys e.mouseX) := rfl
    rw [hcons]
    exact ih _ (fun x hx => hl x (List.mem_cons_of_mem _ hx))
      (imUpdate_steering_bound st e.dt e.keys e.mouseX (hl e (List.mem_cons_self _ _)) h)

/-- C9 counterexample: there is no input history (with the nonnegative frame
times the game loop produces) after which the steering value the
InputManager hands out exceeds the normal unit range — the InputManager has
no drift input, builds no driftIntensity and applies no drift multiplier. -/
theorem no_drift_steering_range :
    ¬ ∃ (steps : List IMStep) (k : RawKeys),
        (∀ e ∈ steps, 0 ≤ e.dt) ∧
          1 < |((runInputManager steps IMState.init).getInputs k).steering| := by
  rintro ⟨steps, k, hdt, hgt⟩
  have hb := runInputManager_steering_bound steps IMState.init hdt
    (by norm_num [IMState.init])
  have heq : ((runInputManager steps IMState.init).getInputs k).steering =
      (runInputManager steps IMState.init).steeringWheel := rfl
  rw [heq] at hgt
  linarith

/-- C9 amended: the InputManager implements no drift input; the steering
value in the frame `getInputs` returns is the raw smoothed steering wheel
value with no multiplier, and for every input history with nonnegative
frame times it stays within the normal unit range. -/
theorem input_steering_within_unit (steps : List IMStep) (k : RawKeys)
    (hdt : ∀ e ∈ steps, 0 ≤ e.dt) :
    ((runInputManager steps IMState.init).getInputs k).steering =
        (runInputManager steps IMState.init).steeringWheel ∧
      |((runInputManager steps IMState.init).getInputs k).steering| ≤ 1 :=
  ⟨rfl, runInputManager_steering_bound steps IMState.init hdt
    (by norm_num [IMState.init])⟩

/-- C9 amended claim instantiated at the empty history. -/
theorem input_steering_within_unit_witness :
    ((runInputManager [] IMState.init).getInputs noKeys).steering =
        (runInputManager [] IMState.init).steeringWheel ∧
      |((runInputManager [] IMState.init).getInputs noKeys).steering| ≤ 1 :=
  input_steering_within_unit [] noKeys (by intro e he; cases he)
